import Mathlib

/-!
Verification of the GDD-driven harvest/quality prediction engine.

This file gives a shallow embedding, over exact rationals (for float
arithmetic), integers (for day arithmetic) and reals (for the logistic
curves using `exp`), of the core prediction functions of the repository:

* `calculate_daily_gdd` from `src/fielder/data/research/gdd-actual-weather.py`
* `DailyWeather.calculate_gdd` from
  `src/fielder-web/legacy/python_engine/fielder/models/weather.py`
* `PredictionBuilder.adjust_confidence_for_conditions` from
  `src/fielder-engine/fielder/models/prediction.py`
* the GDD-status flags, GDD-projection of harvest dates and next-season
  roll-forward of `predict` in `src/fielder-web/legacy/python_engine/app.py`
* the historical-lookup season selection and date-based status flags of
  `predict_cultivar` in the same file
* the crop quality models (`CitrusQualityModel`, `CherryQualityModel`,
  `PecanQualityModel`) from
  `src/fielder-web/legacy/python_engine/fielder/services/quality_predictor.py`
* `HarvestPredictor.calculate_timing_modifier`, `calculate_age_modifier`
  and `predict_brix` from
  `src/fielder-engine/fielder/services/harvest_predictor.py`

Python floats are embedded as `ℚ` (exact arithmetic), Python `int` as `ℤ`,
Python's `int(x)` conversion as truncation toward zero, and Python's
`round(x, 2)` as round-half-to-even at two decimals.  `datetime.date`
values are embedded either as absolute day counts (`ℤ`) where only
`+ timedelta` and comparisons occur, or as (year, day-of-year) pairs
where `date(year, 1, 1) + timedelta(days=k)` and `timetuple().tm_yday`
occur; both embeddings preserve Python's date ordering.
-/

/-! ## Numeric utilities: Python `int()` and `round(x, 2)` -/

/-- Truncation toward zero, the semantics of Python's `int(x)` applied to a
float: floor for nonnegative arguments, ceiling for negative ones. -/
def pyInt (q : ℚ) : ℤ := if 0 ≤ q then ⌊q⌋ else ⌈q⌉

/-- Round half to even at integer precision, the semantics of Python 3's
built-in `round` on an exact value. -/
def roundHalfEven (q : ℚ) : ℤ :=
  if q - ⌊q⌋ < 1/2 then ⌊q⌋
  else if 1/2 < q - ⌊q⌋ then ⌊q⌋ + 1
  else if ⌊q⌋ % 2 = 0 then ⌊q⌋ else ⌊q⌋ + 1

/-- Python's `round(x, 2)`: round half to even at two decimal places. -/
def round2 (q : ℚ) : ℚ := (roundHalfEven (100 * q) : ℚ) / 100

/-! ## GDD Accumulator
`calculate_daily_gdd` from `src/fielder/data/research/gdd-actual-weather.py`
(lines 199-221) and `DailyWeather.calculate_gdd` from
`src/fielder-web/legacy/python_engine/fielder/models/weather.py` (lines 24-35).
`max_temp` is Python-optional; `capped_high = min(temp_high_f, max_temp) if
max_temp else temp_high_f` tests *truthiness*, so a present but zero
`max_temp` leaves the high temperature uncapped. -/

def calculate_daily_gdd (temp_high_f temp_low_f base_temp : ℚ)
    (max_temp : Option ℚ) : ℚ :=
  let capped_high :=
    match max_temp with
    | some mt => if mt ≠ 0 then min temp_high_f mt else temp_high_f
    | none => temp_high_f
  let capped_low := max temp_low_f base_temp
  let avg_temp := (capped_high + capped_low) / 2
  max 0 (avg_temp - base_temp)

/-- Follows the spec's words for the refinement comparison of C4: cap
`temp_high` at `max_temp` whenever `max_temp` is provided, floor `temp_low`
at `base_temp`, and return `max(0, (capped_high + capped_low)/2 - base_temp)`. -/
def spec_daily_gdd (temp_high_f temp_low_f base_temp : ℚ)
    (max_temp : Option ℚ) : ℚ :=
  let capped_high :=
    match max_temp with
    | some mt => min temp_high_f mt
    | none => temp_high_f
  let capped_low := max temp_low_f base_temp
  max 0 ((capped_high + capped_low) / 2 - base_temp)

/-- `DailyWeather.calculate_gdd`: no upper cap and no flooring of the low
temperature before averaging. -/
def DailyWeather_calculate_gdd (temp_high_f temp_low_f base_temp : ℚ) : ℚ :=
  max 0 ((temp_high_f + temp_low_f) / 2 - base_temp)

/-! ## Uncertainty/Confidence Calculator
`PredictionBuilder.adjust_confidence_for_conditions` from
`src/fielder-engine/fielder/models/prediction.py` (lines 338-371).
`historical_variance` is Python-optional and is tested for truthiness
(`if historical_variance and historical_variance > 0.2`), so a present
zero variance skips the penalty. -/

/-- Tiered horizon decay of `adjust_confidence_for_conditions`
(`if days_until_event > 60: confidence *= 0.7  elif > 30: *= 0.85
elif > 14: *= 0.95`). -/
def conf_horizon_step (base_confidence : ℚ) (days_until_event : ℤ) : ℚ :=
  if 60 < days_until_event then base_confidence * (7/10)
  else if 30 < days_until_event then base_confidence * (85/100)
  else if 14 < days_until_event then base_confidence * (95/100)
  else base_confidence

/-- Near-term no-forecast penalty of `adjust_confidence_for_conditions`
(`if not weather_forecast_available and days_until_event <= 14: *= 0.9`). -/
def conf_forecast_step (c : ℚ) (weather_forecast_available : Bool)
    (days_until_event : ℤ) : ℚ :=
  if weather_forecast_available = false ∧ days_until_event ≤ 14 then c * (9/10)
  else c

/-- Historical-variance penalty of `adjust_confidence_for_conditions`
(`if historical_variance and historical_variance > 0.2: *= 0.85`). -/
def conf_variance_step (c : ℚ) (historical_variance : Option ℚ) : ℚ :=
  match historical_variance with
  | some v => if v ≠ 0 ∧ 1/5 < v then c * (85/100) else c
  | none => c

def adjust_confidence_for_conditions (base_confidence : ℚ)
    (days_until_event : ℤ) (weather_forecast_available : Bool)
    (historical_variance : Option ℚ) : ℚ :=
  round2 (min (95/100) (max (1/10)
    (conf_variance_step
      (conf_forecast_step (conf_horizon_step base_confidence days_until_event)
        weather_forecast_available days_until_event)
      historical_variance)))

/-- Decay multiplier applied by the tiered horizon branch of
`adjust_confidence_for_conditions`. -/
def horizonTier (days_until_event : ℤ) : ℚ :=
  if 60 < days_until_event then 7/10
  else if 30 < days_until_event then 85/100
  else if 14 < days_until_event then 95/100
  else 1

/-! ## Harvest status from GDD accumulation
The status flags of `predict` in
`src/fielder-web/legacy/python_engine/app.py` (lines 1454-1472): the
optimal window is the middle 50% of the harvest window by GDD mass, and
the flags are derived from `current_gdd` against those thresholds. -/

def gdd_optimal_start (gdd_to_peak gdd_window : ℚ) : ℚ :=
  gdd_to_peak - gdd_window / 4

def gdd_optimal_end (gdd_to_peak gdd_window : ℚ) : ℚ :=
  gdd_to_peak + gdd_window / 4

def gdd_harvest_end (gdd_to_peak gdd_window : ℚ) : ℚ :=
  gdd_to_peak + gdd_window / 2

/-- `is_off_season = current_gdd < gdd_to_maturity * 0.7 or
current_gdd > gdd_harvest_end`. -/
def is_off_season_gdd (gdd_to_maturity gdd_to_peak gdd_window current_gdd : ℚ) :
    Prop :=
  current_gdd < gdd_to_maturity * (7/10) ∨
    gdd_harvest_end gdd_to_peak gdd_window < current_gdd

/-- `is_harvestable = current_gdd >= gdd_to_maturity and not is_off_season`. -/
def is_harvestable_gdd (gdd_to_maturity gdd_to_peak gdd_window current_gdd : ℚ) :
    Prop :=
  gdd_to_maturity ≤ current_gdd ∧
    ¬ is_off_season_gdd gdd_to_maturity gdd_to_peak gdd_window current_gdd

/-- `is_in_optimal_window = gdd_optimal_start <= current_gdd <=
gdd_optimal_end and not is_off_season`. -/
def is_in_optimal_window_gdd
    (gdd_to_maturity gdd_to_peak gdd_window current_gdd : ℚ) : Prop :=
  (gdd_optimal_start gdd_to_peak gdd_window ≤ current_gdd ∧
      current_gdd ≤ gdd_optimal_end gdd_to_peak gdd_window) ∧
    ¬ is_off_season_gdd gdd_to_maturity gdd_to_peak gdd_window current_gdd

/-- `is_at_peak = gdd_to_peak * 0.97 <= current_gdd <= gdd_to_peak * 1.03
and not is_off_season`. -/
def is_at_peak_gdd (gdd_to_maturity gdd_to_peak gdd_window current_gdd : ℚ) :
    Prop :=
  (gdd_to_peak * (97/100) ≤ current_gdd ∧
      current_gdd ≤ gdd_to_peak * (103/100)) ∧
    ¬ is_off_season_gdd gdd_to_maturity gdd_to_peak gdd_window current_gdd

/-- `is_past_optimal = current_gdd > gdd_optimal_end and
current_gdd <= gdd_harvest_end`. -/
def is_past_optimal_gdd (gdd_to_peak gdd_window current_gdd : ℚ) : Prop :=
  gdd_optimal_end gdd_to_peak gdd_window < current_gdd ∧
    current_gdd ≤ gdd_harvest_end gdd_to_peak gdd_window

instance {m p w g : ℚ} : Decidable (is_off_season_gdd m p w g) := by
  unfold is_off_season_gdd
  exact inferInstance

instance {m p w g : ℚ} : Decidable (is_harvestable_gdd m p w g) := by
  unfold is_harvestable_gdd
  exact inferInstance

instance {m p w g : ℚ} : Decidable (is_in_optimal_window_gdd m p w g) := by
  unfold is_in_optimal_window_gdd
  exact inferInstance

instance {m p w g : ℚ} : Decidable (is_at_peak_gdd m p w g) := by
  unfold is_at_peak_gdd
  exact inferInstance

instance {p w g : ℚ} : Decidable (is_past_optimal_gdd p w g) := by
  unfold is_past_optimal_gdd
  exact inferInstance

/-! ## GDD-projection of harvest dates and next-season roll-forward
Lines 1477-1528 of `app.py` (`predict`), and identically lines 2007-2025
of `predict_cultivar`.  Dates on this code path are only built by
`reference_date + timedelta(days=...)` and compared, so they are embedded
as absolute day numbers in `ℤ`; this preserves Python's date ordering and
`timedelta` arithmetic exactly. -/

structure WindowDates where
  maturity_date : ℤ
  optimal_start_date : ℤ
  peak_center_date : ℤ
  optimal_end_date : ℤ
  window_end_date : ℤ
deriving DecidableEq, Repr

/-- GDD-projection mode: each GDD threshold is divided by the average daily
rate (`int(...)` truncation) and added to the reference (bloom/planting)
date; when the rate is not positive, fixed fallback offsets
200/230/250/270/300 are used (lines 1477-1497). -/
def projectWindowDates (reference_date : ℤ)
    (gdd_to_maturity gdd_to_peak gdd_window avg_daily_gdd : ℚ) : WindowDates :=
  if 0 < avg_daily_gdd then
    { maturity_date := reference_date + pyInt (gdd_to_maturity / avg_daily_gdd)
      optimal_start_date := reference_date +
        pyInt (gdd_optimal_start gdd_to_peak gdd_window / avg_daily_gdd)
      peak_center_date := reference_date + pyInt (gdd_to_peak / avg_daily_gdd)
      optimal_end_date := reference_date +
        pyInt (gdd_optimal_end gdd_to_peak gdd_window / avg_daily_gdd)
      window_end_date := reference_date +
        pyInt (gdd_harvest_end gdd_to_peak gdd_window / avg_daily_gdd) }
  else
    { maturity_date := reference_date + 200
      optimal_start_date := reference_date + 230
      peak_center_date := reference_date + 250
      optimal_end_date := reference_date + 270
      window_end_date := reference_date + 300 }

/-- Long-storage crops excluded from the next-season roll-forward
(`storage_crops = ["apple", "pear"]`). -/
def storage_crops : List String := ["apple", "pear"]

structure PredictDatesResult where
  dates : WindowDates
  showing_next_season : Bool
deriving DecidableEq, Repr

/-- Next-season roll-forward (lines 1504-1528): when the GDD status is
off-season, today is past the projected window end by at least 30 days and
the crop is not a storage crop, all five dates are re-projected from the
next season's bloom date and `showing_next_season` is set. -/
def predictNextSeasonRollForward (crop_id : String)
    (reference_date next_bloom today : ℤ)
    (gdd_to_maturity gdd_to_peak gdd_window current_gdd avg_daily_gdd : ℚ) :
    PredictDatesResult :=
  let dates := projectWindowDates reference_date
    gdd_to_maturity gdd_to_peak gdd_window avg_daily_gdd
  let is_past_season := dates.window_end_date < today
  let days_past_season :=
    if dates.window_end_date < today then today - dates.window_end_date else 0
  if is_off_season_gdd gdd_to_maturity gdd_to_peak gdd_window current_gdd ∧
      is_past_season ∧ 30 ≤ days_past_season ∧ crop_id ∉ storage_crops then
    { dates := projectWindowDates next_bloom
        gdd_to_maturity gdd_to_peak gdd_window avg_daily_gdd
      showing_next_season := true }
  else
    { dates := dates, showing_next_season := false }

/-! ## Historical-lookup mode: season selection across the year boundary
Lines 1935-1972 of `app.py` (`predict_cultivar`) and the date-based status
flags of lines 2037-2041.  This code path builds dates with
`date(ref_year, 1, 1) + timedelta(days=doy - 1)` and reads
`today.timetuple().tm_yday`, so dates are embedded as (year, day-of-year)
pairs with the proleptic Gregorian leap rule; comparison of valid dates is
lexicographic, exactly as for Python `datetime.date`. -/

structure DateYD where
  year : ℤ
  doy : ℤ
deriving DecidableEq, Repr

/-- Gregorian leap-year rule, as implemented by Python's `datetime`. -/
def isLeapYear (y : ℤ) : Prop := (y % 4 = 0 ∧ ¬ y % 100 = 0) ∨ y % 400 = 0

instance {y : ℤ} : Decidable (isLeapYear y) := by
  unfold isLeapYear
  exact inferInstance

def daysInYear (y : ℤ) : ℤ := if isLeapYear y then 366 else 365

/-- A (year, day-of-year) pair denotes a real calendar date. -/
def validDate (d : DateYD) : Prop := 1 ≤ d.doy ∧ d.doy ≤ daysInYear d.year

instance {d : DateYD} : Decidable (validDate d) := by
  unfold validDate
  exact inferInstance

/-- Python date order on the (year, day-of-year) embedding: lexicographic. -/
def dateLe (a b : DateYD) : Prop :=
  a.year < b.year ∨ (a.year = b.year ∧ a.doy ≤ b.doy)

/-- Strict Python date order on the (year, day-of-year) embedding. -/
def dateLt (a b : DateYD) : Prop :=
  a.year < b.year ∨ (a.year = b.year ∧ a.doy < b.doy)

instance {a b : DateYD} : Decidable (dateLe a b) := by
  unfold dateLe
  exact inferInstance

instance {a b : DateYD} : Decidable (dateLt a b) := by
  unfold dateLt
  exact inferInstance

/-- `date(y, 1, 1) + timedelta(days=k)`, for offsets `k` that land in year
`y` or spill into year `y + 1` (every use below has `0 ≤ k ≤ 364`). -/
def jan1Plus (y k : ℤ) : DateYD :=
  if k < daysInYear y then ⟨y, k + 1⟩ else ⟨y + 1, k - daysInYear y + 1⟩

/-- The inner helper `doy_to_date(doy, ref_year)` of `predict_cultivar`
(lines 1935-1940): `if doy <= 0: doy += 365; ref_year -= 1`, then
`date(ref_year, 1, 1) + timedelta(days=doy - 1)`. -/
def doy_to_date (doy ref_year : ℤ) : DateYD :=
  if doy ≤ 0 then jan1Plus (ref_year - 1) (doy + 365 - 1)
  else jan1Plus ref_year (doy - 1)

/-- Season-instance selection of lines 1943-1972: the pair
`(harvest_start_date, harvest_end_date)` computed from the historical
day-of-year window and today's date, handling windows that wrap the year
boundary (`harvest_end_doy < harvest_start_doy`). -/
def selectSeasonWindow (harvest_start_doy harvest_end_doy : ℤ)
    (today : DateYD) : DateYD × DateYD :=
  if harvest_end_doy < harvest_start_doy then
    if harvest_start_doy ≤ today.doy then
      (doy_to_date harvest_start_doy today.year,
       doy_to_date harvest_end_doy (today.year + 1))
    else if today.doy ≤ harvest_end_doy then
      (doy_to_date harvest_start_doy (today.year - 1),
       doy_to_date harvest_end_doy today.year)
    else
      (doy_to_date harvest_start_doy today.year,
       doy_to_date harvest_end_doy (today.year + 1))
  else
    if harvest_end_doy < today.doy then
      (doy_to_date harvest_start_doy (today.year + 1),
       doy_to_date harvest_end_doy (today.year + 1))
    else
      (doy_to_date harvest_start_doy today.year,
       doy_to_date harvest_end_doy today.year)

/-! Date-based status flags of lines 2037-2041 of `app.py`. -/

/-- `is_off_season = today < harvest_start_date or today > harvest_end_date`. -/
def is_off_season_date (harvest_start_date harvest_end_date today : DateYD) :
    Prop :=
  dateLt today harvest_start_date ∨ dateLt harvest_end_date today

/-- `is_harvestable = harvest_start_date <= today <= harvest_end_date`. -/
def is_harvestable_date (harvest_start_date harvest_end_date today : DateYD) :
    Prop :=
  dateLe harvest_start_date today ∧ dateLe today harvest_end_date

/-- `is_in_optimal_window = optimal_start_date <= today <= optimal_end_date`. -/
def is_in_optimal_window_date (optimal_start_date optimal_end_date today : DateYD) :
    Prop :=
  dateLe optimal_start_date today ∧ dateLe today optimal_end_date

/-- `is_past_optimal = today > optimal_end_date and today <= harvest_end_date`. -/
def is_past_optimal_date (optimal_end_date harvest_end_date today : DateYD) :
    Prop :=
  dateLt optimal_end_date today ∧ dateLe today harvest_end_date

instance {s e t : DateYD} : Decidable (is_off_season_date s e t) := by
  unfold is_off_season_date
  exact inferInstance

instance {s e t : DateYD} : Decidable (is_harvestable_date s e t) := by
  unfold is_harvestable_date
  exact inferInstance

/-- Day-of-year of November 1 (305 in a common year, 306 in a leap year). -/
def nov1doy (y : ℤ) : ℤ := if isLeapYear y then 306 else 305

/-! ## Quality Curve Models
From `src/fielder-web/legacy/python_engine/fielder/services/quality_predictor.py`.
The logistic sugar curves use `math.exp`, embedded over `ℝ` with
`Real.exp`; the pecan oil model is piecewise linear and stays in `ℚ`. -/

/-- Shared logistic sugar form
`ssc_min + (ceiling - ssc_min) / (1 + exp(-(gdd - dd50)/s))` used by the
crop quality models. -/
noncomputable def logistic_sugar (ssc_min dd50 s ceiling gdd : ℝ) : ℝ :=
  ssc_min + (ceiling - ssc_min) / (1 + Real.exp (-(gdd - dd50) / s))

/-- `CitrusQualityModel.predict_sugar_content` (lines 175-190):
`ssc_min = 6.0`, `dd50 = 5500`, `s = 900`. -/
noncomputable def citrus_predict_sugar_content (gdd_accumulated cultivar_ceiling : ℝ) : ℝ :=
  logistic_sugar 6 5500 900 cultivar_ceiling gdd_accumulated

/-- `CherryQualityModel.predict_sugar_content` (lines 484-498):
`ssc_min = 10.0`, `dd50 = 1400`, `s = 80`. -/
noncomputable def cherry_predict_sugar_content (gdd_accumulated cultivar_ceiling : ℝ) : ℝ :=
  logistic_sugar 10 1400 80 cultivar_ceiling gdd_accumulated

/-- `PecanQualityModel.predict_sugar_content` (lines 813-836): returns oil
content percentage; `gdd_target = 2900`, `max_oil = 70.0`, `min_oil = 55.0`,
shuck-split threshold 2600.  The `cultivar_ceiling` argument is accepted and
ignored, as in the source. -/
def pecan_predict_sugar_content (gdd_accumulated cultivar_ceiling : ℚ) : ℚ :=
  if 2900 ≤ gdd_accumulated then 70
  else if 2600 ≤ gdd_accumulated then
    55 + (70 - 55) * ((gdd_accumulated - 2600) / (2900 - 2600))
  else 55

/-- `PecanQualityModel.predict_acid_content` (lines 838-841). -/
def pecan_predict_acid_content (gdd_accumulated : ℚ) : ℚ := 0

/-! ## Harvest predictor Brix model
`HarvestPredictor` in `src/fielder-engine/fielder/services/harvest_predictor.py`
(lines 48-142), with the citrus rootstock Brix modifiers of
`CITRUS_ROOTSTOCKS` in `src/fielder-engine/fielder/models/crop.py`. -/

/-- Brix modifiers of `CITRUS_ROOTSTOCKS`, keyed by rootstock id. -/
def citrus_rootstock_brix_modifier (rootstock_id : String) : Option ℚ :=
  if rootstock_id = "carrizo" then some (6/10)
  else if rootstock_id = "c35" then some (6/10)
  else if rootstock_id = "sour_orange" then some (5/10)
  else if rootstock_id = "trifoliate" then some (5/10)
  else if rootstock_id = "cleopatra" then some (2/10)
  else if rootstock_id = "swingle" then some (-5/10)
  else if rootstock_id = "rough_lemon" then some (-7/10)
  else if rootstock_id = "volkamer" then some (-7/10)
  else if rootstock_id = "macrophylla" then some (-8/10)
  else none

/-- The rootstock modifier resolution of `predict_brix` (lines 121-124):
`if rootstock_id and rootstock_id in self.rootstocks` — an absent or empty
id, or an unknown id, contributes 0. -/
def resolve_rootstock_modifier (rootstock_id : Option String) : ℚ :=
  match rootstock_id with
  | none => 0
  | some s =>
    if s = "" then 0
    else
      match citrus_rootstock_brix_modifier s with
      | some m => m
      | none => 0

/-- `HarvestPredictor.calculate_age_modifier` (lines 48-75). -/
def calculate_age_modifier (tree_age_years : Option ℤ) : ℚ :=
  match tree_age_years with
  | none => 0
  | some age =>
    if age ≤ 2 then -8/10
    else if age ≤ 4 then -5/10
    else if age ≤ 7 then -2/10
    else if age ≤ 18 then 0
    else if age ≤ 25 then -2/10
    else -3/10

/-- `HarvestPredictor.calculate_timing_modifier` (lines 77-105):
parabolic penalty `-max_penalty * (d/h)^2`, zero inside the inner
quartile `d <= h/2`, capped at `1.5 * max_penalty`. -/
def calculate_timing_modifier (current_gdd peak_gdd gdd_halfwidth max_penalty : ℚ) : ℚ :=
  let d := |current_gdd - peak_gdd|
  let h := gdd_halfwidth
  if d ≤ h / 2 then 0
  else -(min (max_penalty * (d / h) ^ 2) (max_penalty * (3/2)))

/-- The un-rounded predicted Brix of `HarvestPredictor.predict_brix`
(line 133): cultivar base + rootstock modifier + age modifier + timing
modifier, with the default `gdd_halfwidth = 150` and `max_penalty = 1.0`. -/
def predict_brix_raw (cultivar_base_brix : ℚ) (rootstock_id : Option String)
    (tree_age_years : Option ℤ) (current_gdd peak_gdd : ℚ) : ℚ :=
  cultivar_base_brix + resolve_rootstock_modifier rootstock_id +
    calculate_age_modifier tree_age_years +
    calculate_timing_modifier current_gdd peak_gdd 150 1

/-- The `predicted_brix` field of `predict_brix` (line 136):
`round(predicted, 2)`. -/
def predict_brix (cultivar_base_brix : ℚ) (rootstock_id : Option String)
    (tree_age_years : Option ℤ) (current_gdd peak_gdd : ℚ) : ℚ :=
  round2 (predict_brix_raw cultivar_base_brix rootstock_id tree_age_years
    current_gdd peak_gdd)

/-! ## Supporting lemmas -/

theorem pyInt_mono {q r : ℚ} (h : q ≤ r) : pyInt q ≤ pyInt r := by
  unfold pyInt
  by_cases hq : 0 ≤ q
  · rw [if_pos hq, if_pos (le_trans hq h)]
    exact Int.floor_mono h
  · rw [if_neg hq]
    by_cases hr : 0 ≤ r
    · rw [if_pos hr]
      calc ⌈q⌉ ≤ 0 := Int.ceil_le.mpr (by exact_mod_cast le_of_not_le hq)
        _ ≤ ⌊r⌋ := Int.floor_nonneg.mpr hr
    · rw [if_neg hr]
      exact Int.ceil_mono h

theorem floor_le_roundHalfEven (q : ℚ) : ⌊q⌋ ≤ roundHalfEven q := by
  unfold roundHalfEven
  split_ifs <;> omega

theorem roundHalfEven_le_floor_add_one (q : ℚ) :
    roundHalfEven q ≤ ⌊q⌋ + 1 := by
  unfold roundHalfEven
  split_ifs <;> omega

theorem roundHalfEven_le_ceil (q : ℚ) : roundHalfEven q ≤ ⌈q⌉ := by
  unfold roundHalfEven
  split_ifs with h1 h2 h3
  · exact Int.floor_le_ceil q
  · -- the fractional part is at least 1/2, so q is strictly above its floor
    have hq : (⌊q⌋ : ℚ) < q := by linarith [Int.fract_nonneg q, Int.self_sub_floor q]
    have : ⌊q⌋ < ⌈q⌉ := by
      have := Int.le_ceil q
      exact_mod_cast lt_of_lt_of_le hq this
    omega
  · exact Int.floor_le_ceil q
  · have hq : (⌊q⌋ : ℚ) < q := by linarith
    have : ⌊q⌋ < ⌈q⌉ := by
      have := Int.le_ceil q
      exact_mod_cast lt_of_lt_of_le hq this
    omega

theorem roundHalfEven_mono {q r : ℚ} (h : q ≤ r) :
    roundHalfEven q ≤ roundHalfEven r := by
  have hf : ⌊q⌋ ≤ ⌊r⌋ := Int.floor_mono h
  rcases lt_or_eq_of_le hf with hlt | heq
  · calc roundHalfEven q ≤ ⌊q⌋ + 1 := roundHalfEven_le_floor_add_one q
      _ ≤ ⌊r⌋ := hlt
      _ ≤ roundHalfEven r := floor_le_roundHalfEven r
  · unfold roundHalfEven
    rw [← heq]
    have hcast : ((⌊q⌋ : ℚ)) ≤ q := Int.floor_le q
    split_ifs <;> first | omega | linarith

theorem round2_mono {q r : ℚ} (h : q ≤ r) : round2 q ≤ round2 r := by
  unfold round2
  have : roundHalfEven (100 * q) ≤ roundHalfEven (100 * r) :=
    roundHalfEven_mono (by linarith)
  have hc : ((roundHalfEven (100 * q) : ℚ)) ≤ (roundHalfEven (100 * r) : ℚ) := by
    exact_mod_cast this
  linarith

theorem round2_bounds {lo hi : ℤ} {x : ℚ}
    (hlo : (lo : ℚ) / 100 ≤ x) (hhi : x ≤ (hi : ℚ) / 100) :
    (lo : ℚ) / 100 ≤ round2 x ∧ round2 x ≤ (hi : ℚ) / 100 := by
  have h1 : (lo : ℚ) ≤ 100 * x := by linarith
  have h2 : 100 * x ≤ (hi : ℚ) := by linarith
  have hfl : lo ≤ ⌊100 * x⌋ := Int.le_floor.mpr h1
  have hcl : ⌈100 * x⌉ ≤ hi := Int.ceil_le.mpr h2
  have hlow : lo ≤ roundHalfEven (100 * x) :=
    le_trans hfl (floor_le_roundHalfEven _)
  have hhigh : roundHalfEven (100 * x) ≤ hi :=
    le_trans (roundHalfEven_le_ceil _) hcl
  constructor
  · unfold round2
    have : (lo : ℚ) ≤ (roundHalfEven (100 * x) : ℚ) := by exact_mod_cast hlow
    linarith
  · unfold round2
    have : ((roundHalfEven (100 * x) : ℚ)) ≤ (hi : ℚ) := by exact_mod_cast hhigh
    linarith

theorem conf_horizon_step_eq (base : ℚ) (d : ℤ) :
    conf_horizon_step base d = base * horizonTier d := by
  unfold conf_horizon_step horizonTier
  split_ifs <;> ring

theorem conf_forecast_step_true (c : ℚ) (d : ℤ) :
    conf_forecast_step c true d = c := by
  unfold conf_forecast_step
  rw [if_neg]
  simp

theorem conf_variance_step_mono {c c' : ℚ} (h : c ≤ c')
    (hv : Option ℚ) : conf_variance_step c hv ≤ conf_variance_step c' hv := by
  cases hv with
  | none => simpa [conf_variance_step] using h
  | some v =>
    simp only [conf_variance_step]
    split_ifs
    · nlinarith
    · exact h

theorem conf_variance_step_nonpos {c : ℚ} (h : c ≤ 0) (hv : Option ℚ) :
    conf_variance_step c hv ≤ 0 := by
  cases hv with
  | none => simpa [conf_variance_step] using h
  | some v =>
    simp only [conf_variance_step]
    split_ifs
    · nlinarith
    · exact h

theorem horizonTier_antitone {d1 d2 : ℤ} (h : d1 ≤ d2) :
    horizonTier d2 ≤ horizonTier d1 := by
  unfold horizonTier
  split_ifs <;> first | (exfalso; omega) | norm_num

theorem horizonTier_pos (d : ℤ) : 0 < horizonTier d := by
  unfold horizonTier
  split_ifs <;> norm_num


theorem pyInt_intCast (n : ℤ) : pyInt (n : ℚ) = n := by
  unfold pyInt
  split_ifs
  · exact Int.floor_intCast n
  · exact Int.ceil_intCast n

theorem pyInt_eval_nonneg {q : ℚ} {n : ℤ} (hq : 0 ≤ q)
    (h1 : (n : ℚ) ≤ q) (h2 : q < n + 1) : pyInt q = n := by
  unfold pyInt
  rw [if_pos hq, Int.floor_eq_iff]
  exact ⟨h1, h2⟩

theorem round2_of_int (n : ℤ) : round2 ((n : ℚ) / 100) = (n : ℚ) / 100 := by
  unfold round2 roundHalfEven
  have h : (100 : ℚ) * ((n : ℚ) / 100) = (n : ℚ) := by ring
  rw [h, Int.floor_intCast]
  rw [if_pos (by norm_num)]

theorem timing_modifier_nonpos (current_gdd peak_gdd gdd_halfwidth max_penalty : ℚ)
    (hmp : 0 ≤ max_penalty) :
    calculate_timing_modifier current_gdd peak_gdd gdd_halfwidth max_penalty ≤ 0 := by
  simp only [calculate_timing_modifier]
  split_ifs
  · exact le_refl 0
  · have h1 : 0 ≤ max_penalty * (|current_gdd - peak_gdd| / gdd_halfwidth) ^ 2 :=
      mul_nonneg hmp (sq_nonneg _)
    have h2 : 0 ≤ max_penalty * (3/2) := by nlinarith
    have := le_min h1 h2
    linarith [this]

/-- C4 (corrected): for `max_temp` absent or present and nonzero,
`calculate_daily_gdd` agrees with the spec formula
`max(0, (capped_high + capped_low)/2 - base_temp)` (capping high at
`max_temp`, flooring low at `base_temp`); the 86/50 capping instance
`daily_gdd(100, 70, 50, max_temp=86) = daily_gdd(86, 70, 50, max_temp=86)`
holds; and the result is never negative.  (The original claim fails when a
`max_temp` of `0.0` is provided: Python truthiness skips the cap.) -/
theorem C4_daily_gdd_spec_agreement (temp_high temp_low base : ℚ)
    (max_temp : Option ℚ) (v : ℚ)
    (hmt : max_temp = none ∨ (max_temp = some v ∧ v ≠ 0)) :
    calculate_daily_gdd temp_high temp_low base max_temp =
        spec_daily_gdd temp_high temp_low base max_temp ∧
      calculate_daily_gdd 100 70 50 (some 86) =
        calculate_daily_gdd 86 70 50 (some 86) ∧
      0 ≤ calculate_daily_gdd temp_high temp_low base max_temp := by
  refine ⟨?_, ?_, ?_⟩
  · rcases hmt with h | ⟨h, hv⟩
    · subst h
      rfl
    · subst h
      simp only [calculate_daily_gdd, spec_daily_gdd, if_pos hv]
  · unfold calculate_daily_gdd
    norm_num
  · unfold calculate_daily_gdd
    exact le_max_left 0 _

/-- C4 counterexample: with a provided `max_temp` of `0.0`,
`calculate_daily_gdd` does not cap the high temperature (Python truthiness),
so it differs from the spec formula: at `(100, 0, 0, max_temp=0)` the code
yields 50 while the spec's capped formula yields 0. -/
theorem C4_counterexample :
    calculate_daily_gdd 100 0 0 (some 0) = 50 ∧
      spec_daily_gdd 100 0 0 (some 0) = 0 := by
  constructor
  · unfold calculate_daily_gdd
    norm_num
  · unfold spec_daily_gdd
    norm_num

/-- C4 witness: the spec-agreement theorem applied at the concrete input
`(100, 70, 50, max_temp=86)`. -/
theorem C4_witness :
    calculate_daily_gdd 100 70 50 (some 86) =
      spec_daily_gdd 100 70 50 (some 86) :=
  (C4_daily_gdd_spec_agreement 100 70 50 (some 86) 86
    (Or.inr ⟨rfl, by norm_num⟩)).1

/-- C6 (confirmed): for every base confidence, horizon, forecast flag and
historical variance, `adjust_confidence_for_conditions` returns a value in
the closed interval `[0.1, 0.95]`. -/
theorem C6_confidence_bounds (base : ℚ) (days : ℤ) (avail : Bool)
    (hv : Option ℚ) :
    1/10 ≤ adjust_confidence_for_conditions base days avail hv ∧
      adjust_confidence_for_conditions base days avail hv ≤ 95/100 := by
  unfold adjust_confidence_for_conditions
  have hlo : ((10 : ℤ) : ℚ) / 100 ≤
      min (95/100) (max (1/10)
        (conf_variance_step (conf_forecast_step (conf_horizon_step base days)
          avail days) hv)) := by
    apply le_min
    · norm_num
    · calc ((10 : ℤ) : ℚ) / 100 = 1/10 := by norm_num
        _ ≤ _ := le_max_left _ _
  have hhi : min (95/100) (max (1/10)
      (conf_variance_step (conf_forecast_step (conf_horizon_step base days)
        avail days) hv)) ≤ ((95 : ℤ) : ℚ) / 100 := by
    calc min (95/100) _ ≤ 95/100 := min_le_left _ _
      _ = ((95 : ℤ) : ℚ) / 100 := by norm_num
  have := round2_bounds hlo hhi
  constructor
  · calc (1/10 : ℚ) = ((10 : ℤ) : ℚ) / 100 := by norm_num
      _ ≤ _ := this.1
  · calc round2 _ ≤ ((95 : ℤ) : ℚ) / 100 := this.2
      _ = 95/100 := by norm_num

/-- C9 (confirmed): the pecan model returns oil content, exactly 70.0 at or
above the 2900 GDD target, exactly 55.0 below the 2600 shuck-split
threshold, the linear interpolation between 55 and 70 on [2600, 2900), and
its acid prediction is 0 for every GDD. -/
theorem C9_pecan_oil_model (gdd ceiling : ℚ) :
    (2900 ≤ gdd → pecan_predict_sugar_content gdd ceiling = 70) ∧
      (gdd < 2600 → pecan_predict_sugar_content gdd ceiling = 55) ∧
      (2600 ≤ gdd → gdd < 2900 →
        pecan_predict_sugar_content gdd ceiling =
          55 + (70 - 55) * ((gdd - 2600) / (2900 - 2600))) ∧
      pecan_predict_acid_content gdd = 0 := by
  refine ⟨?_, ?_, ?_, rfl⟩
  · intro h
    unfold pecan_predict_sugar_content
    rw [if_pos h]
  · intro h
    unfold pecan_predict_sugar_content
    rw [if_neg (by linarith), if_neg (by linarith)]
  · intro h1 h2
    unfold pecan_predict_sugar_content
    rw [if_neg (by linarith), if_pos h1]

/-- C9 witness: the pecan model theorem applied at 3000 GDD (above target),
2000 GDD (below shuck split) and 2750 GDD (interpolation region). -/
theorem C9_witness :
    pecan_predict_sugar_content 3000 14 = 70 ∧
      pecan_predict_sugar_content 2000 14 = 55 ∧
      pecan_predict_sugar_content 2750 14 =
        55 + (70 - 55) * ((2750 - 2600) / (2900 - 2600)) ∧
      pecan_predict_acid_content 1234 = 0 :=
  ⟨(C9_pecan_oil_model 3000 14).1 (by norm_num),
   (C9_pecan_oil_model 2000 14).2.1 (by norm_num),
   (C9_pecan_oil_model 2750 14).2.2.1 (by norm_num) (by norm_num),
   (C9_pecan_oil_model 1234 0).2.2.2⟩

/-- C10 (confirmed): `calculate_timing_modifier` is exactly 0 inside the
inner quartile `|current - peak| <= halfwidth/2`, never positive, and never
below `-1.5 * max_penalty`; consequently the un-rounded predicted Brix of
`predict_brix` never exceeds cultivar base + rootstock modifier + age
modifier. -/
theorem C10_timing_modifier (current_gdd peak_gdd gdd_halfwidth max_penalty
    base : ℚ) (rootstock_id : Option String) (tree_age_years : Option ℤ)
    (hh : 0 < gdd_halfwidth) (hmp : 0 ≤ max_penalty) :
    (|current_gdd - peak_gdd| ≤ gdd_halfwidth / 2 →
        calculate_timing_modifier current_gdd peak_gdd gdd_halfwidth max_penalty = 0) ∧
      calculate_timing_modifier current_gdd peak_gdd gdd_halfwidth max_penalty ≤ 0 ∧
      -(3/2) * max_penalty ≤
        calculate_timing_modifier current_gdd peak_gdd gdd_halfwidth max_penalty ∧
      predict_brix_raw base rootstock_id tree_age_years current_gdd peak_gdd ≤
        base + resolve_rootstock_modifier rootstock_id +
          calculate_age_modifier tree_age_years := by
  refine ⟨?_, timing_modifier_nonpos _ _ _ _ hmp, ?_, ?_⟩
  · intro hin
    simp only [calculate_timing_modifier]
    rw [if_pos hin]
  · simp only [calculate_timing_modifier]
    split_ifs
    · nlinarith
    · have := min_le_right (max_penalty * (|current_gdd - peak_gdd| / gdd_halfwidth) ^ 2)
        (max_penalty * (3/2))
      linarith
  · unfold predict_brix_raw
    have := timing_modifier_nonpos current_gdd peak_gdd 150 1 (by norm_num)
    linarith

/-- C10 witness: the timing-modifier theorem applied at peak
(`current_gdd = peak_gdd = 2000`), halfwidth 150, max penalty 1, with the
Carrizo rootstock and a 10-year-old tree. -/
theorem C10_witness :
    calculate_timing_modifier 2000 2000 150 1 = 0 ∧
      calculate_timing_modifier 2100 2000 150 1 ≤ 0 ∧
      -(3/2) * 1 ≤ calculate_timing_modifier 2100 2000 150 1 ∧
      predict_brix_raw 12 (some "carrizo") (some 10) 2000 2000 ≤
        12 + resolve_rootstock_modifier (some "carrizo") +
          calculate_age_modifier (some 10) :=
  ⟨(C10_timing_modifier 2000 2000 150 1 12 (some "carrizo") (some 10)
      (by norm_num) (by norm_num)).1 (by norm_num),
   (C10_timing_modifier 2100 2000 150 1 12 (some "carrizo") (some 10)
      (by norm_num) (by norm_num)).2.1,
   (C10_timing_modifier 2100 2000 150 1 12 (some "carrizo") (some 10)
      (by norm_num) (by norm_num)).2.2.1,
   (C10_timing_modifier 2000 2000 150 1 12 (some "carrizo") (some 10)
      (by norm_num) (by norm_num)).2.2.2⟩

/-- C3 counterexample: with no forecast available and no variance data, a
base confidence of 0.8 yields 0.72 at 14 days out (near-term no-forecast
penalty ×0.9) but 0.76 at 15 days out (×0.95 tier only), so the returned
confidence is not non-increasing in `days_until_event`. -/
theorem C3_counterexample :
    adjust_confidence_for_conditions (8/10) 14 false none <
      adjust_confidence_for_conditions (8/10) 15 false none := by
  have h14 : adjust_confidence_for_conditions (8/10) 14 false none =
      ((72 : ℤ) : ℚ) / 100 := by
    unfold adjust_confidence_for_conditions conf_variance_step
      conf_forecast_step conf_horizon_step
    norm_num
    rw [show ((18 : ℚ)/25) = ((72 : ℤ) : ℚ) / 100 by norm_num]
    exact round2_of_int 72
  have h15 : adjust_confidence_for_conditions (8/10) 15 false none =
      ((76 : ℤ) : ℚ) / 100 := by
    unfold adjust_confidence_for_conditions conf_variance_step
      conf_forecast_step conf_horizon_step
    norm_num
    rw [show ((19 : ℚ)/25) = ((76 : ℤ) : ℚ) / 100 by norm_num]
    exact round2_of_int 76
  rw [h14, h15]
  norm_num

/-- C3 (corrected): whenever forecast data is available, the confidence
returned by `adjust_confidence_for_conditions` is non-increasing in
`days_until_event`, with the tiered multipliers 0.95 (>14d), 0.85 (>30d)
and 0.7 (>60d); when forecast data is absent, the additional ×0.9 penalty
at ≤14 days can make a near-term confidence lower than the 15-30 day tier,
so monotonicity holds only on the forecast-available slice. -/
theorem C3_confidence_monotone_with_forecast (base : ℚ) (hv : Option ℚ)
    (d1 d2 : ℤ) (h : d1 ≤ d2) :
    adjust_confidence_for_conditions base d2 true hv ≤
      adjust_confidence_for_conditions base d1 true hv := by
  unfold adjust_confidence_for_conditions
  rw [conf_forecast_step_true, conf_forecast_step_true,
    conf_horizon_step_eq, conf_horizon_step_eq]
  apply round2_mono
  rcases le_or_lt 0 base with hb | hb
  · apply min_le_min (le_refl _)
    apply max_le_max (le_refl _)
    apply conf_variance_step_mono _ hv
    have ht := horizonTier_antitone h
    nlinarith [horizonTier_pos d1, horizonTier_pos d2]
  · have e2 : max (1/10) (conf_variance_step (base * horizonTier d2) hv) =
        1/10 := by
      apply max_eq_left
      have : base * horizonTier d2 ≤ 0 := by nlinarith [horizonTier_pos d2]
      have := conf_variance_step_nonpos this hv
      linarith
    have e1 : max (1/10) (conf_variance_step (base * horizonTier d1) hv) =
        1/10 := by
      apply max_eq_left
      have : base * horizonTier d1 ≤ 0 := by nlinarith [horizonTier_pos d1]
      have := conf_variance_step_nonpos this hv
      linarith
    rw [e1, e2]

/-- C3 witness: the monotonicity theorem applied with base 0.8, no variance
data, forecast available, horizons 20 and 40 days. -/
theorem C3_witness :
    adjust_confidence_for_conditions (8/10) 40 true none ≤
      adjust_confidence_for_conditions (8/10) 20 true none :=
  C3_confidence_monotone_with_forecast (8/10) none 20 40 (by norm_num)

/-- C1 counterexample: the GDDTarget `maturity = 50 < peak = 100`,
`window = 1000 > 0` is valid for the stated invariant, yet with rate 1 the
projected maturity date (reference + 50) falls after the projected
optimal-start date (reference − 150), because
`gdd_optimal_start = peak − window/4` is below `gdd_to_maturity`. -/
theorem C1_counterexample :
    (0:ℚ) < 50 ∧ (50:ℚ) < 100 ∧ (0:ℚ) < 1000 ∧ (0:ℚ) < 1 ∧
      ¬ ((projectWindowDates 0 50 100 1000 1).maturity_date ≤
          (projectWindowDates 0 50 100 1000 1).optimal_start_date) := by
  have hm : (projectWindowDates 0 50 100 1000 1).maturity_date = 50 := by
    unfold projectWindowDates
    rw [if_pos (by norm_num : (0:ℚ) < 1)]
    dsimp only
    rw [show ((50:ℚ)/1) = ((50 : ℤ) : ℚ) by norm_num, pyInt_intCast]
    norm_num
  have ho : (projectWindowDates 0 50 100 1000 1).optimal_start_date = -150 := by
    unfold projectWindowDates gdd_optimal_start
    rw [if_pos (by norm_num : (0:ℚ) < 1)]
    dsimp only
    rw [show ((100 - 1000/4 : ℚ)/1) = ((-150 : ℤ) : ℚ) by norm_num,
      pyInt_intCast]
    norm_num
  refine ⟨by norm_num, by norm_num, by norm_num, by norm_num, ?_⟩
  rw [hm, ho]
  norm_num

/-- C1 (corrected): for a valid GDDTarget, a positive daily rate and any
reference date, the five dates of GDD-projection mode satisfy
`maturity <= optimal_start <= peak <= optimal_end <= window_end` provided
additionally `gdd_to_maturity <= gdd_to_peak - gdd_window/4` (the last four
thresholds are always ordered, but maturity can exceed the optimal-start
threshold for wide windows, as the counterexample shows). -/
theorem C1_window_ordering (reference_date : ℤ) (m p w rate : ℚ)
    (h1 : 0 < m) (h2 : m < p) (h3 : 0 < w) (h4 : 0 < rate)
    (h5 : m ≤ p - w / 4) :
    (projectWindowDates reference_date m p w rate).maturity_date ≤
        (projectWindowDates reference_date m p w rate).optimal_start_date ∧
      (projectWindowDates reference_date m p w rate).optimal_start_date ≤
        (projectWindowDates reference_date m p w rate).peak_center_date ∧
      (projectWindowDates reference_date m p w rate).peak_center_date ≤
        (projectWindowDates reference_date m p w rate).optimal_end_date ∧
      (projectWindowDates reference_date m p w rate).optimal_end_date ≤
        (projectWindowDates reference_date m p w rate).window_end_date := by
  unfold projectWindowDates gdd_optimal_start gdd_optimal_end gdd_harvest_end
  rw [if_pos h4]
  dsimp only
  refine ⟨?_, ?_, ?_, ?_⟩ <;>
    · apply add_le_add_left
      apply pyInt_mono
      apply (div_le_div_right h4).mpr
      linarith

/-- C1 witness: the amended ordering theorem applied to the GDDTarget
`(maturity 100, peak 200, window 100)` at rate 2 and reference date 0. -/
theorem C1_witness :
    (projectWindowDates 0 100 200 100 2).maturity_date ≤
        (projectWindowDates 0 100 200 100 2).optimal_start_date ∧
      (projectWindowDates 0 100 200 100 2).optimal_start_date ≤
        (projectWindowDates 0 100 200 100 2).peak_center_date ∧
      (projectWindowDates 0 100 200 100 2).peak_center_date ≤
        (projectWindowDates 0 100 200 100 2).optimal_end_date ∧
      (projectWindowDates 0 100 200 100 2).optimal_end_date ≤
        (projectWindowDates 0 100 200 100 2).window_end_date :=
  C1_window_ordering 0 100 200 100 2 (by norm_num) (by norm_num)
    (by norm_num) (by norm_num) (by norm_num)

/-- C5 counterexample: with the valid GDDTarget (maturity 1000, peak 2000,
window 400) and `current_gdd = 2000`, both `is_at_peak` and
`is_in_optimal_window` hold, so the four non-harvestable status flags are
not pairwise mutually exclusive. -/
theorem C5_counterexample :
    is_at_peak_gdd 1000 2000 400 2000 ∧
      is_in_optimal_window_gdd 1000 2000 400 2000 := by
  constructor
  · unfold is_at_peak_gdd is_off_season_gdd gdd_harvest_end
    norm_num
  · unfold is_in_optimal_window_gdd is_off_season_gdd gdd_optimal_start
      gdd_optimal_end gdd_harvest_end
    norm_num

/-- C5 (corrected): for a valid GDDTarget, `off_season` excludes each of
`harvestable`, `in_optimal_window`, `at_peak` and `past_optimal`, and
`in_optimal_window` excludes `past_optimal`; but `at_peak` can hold
together with `in_optimal_window` (and is not excluded from
`past_optimal`), so the four non-harvestable flags are not pairwise
mutually exclusive — only the if/elif display chain selects a single
status. -/
theorem C5_status_exclusions (m p w g : ℚ)
    (h1 : 0 < m) (h2 : m < p) (h3 : 0 < w) :
    ¬ (is_off_season_gdd m p w g ∧ is_harvestable_gdd m p w g) ∧
      ¬ (is_off_season_gdd m p w g ∧ is_in_optimal_window_gdd m p w g) ∧
      ¬ (is_off_season_gdd m p w g ∧ is_at_peak_gdd m p w g) ∧
      ¬ (is_off_season_gdd m p w g ∧ is_past_optimal_gdd p w g) ∧
      ¬ (is_in_optimal_window_gdd m p w g ∧ is_past_optimal_gdd p w g) := by
  refine ⟨?_, ?_, ?_, ?_, ?_⟩
  · rintro ⟨hoff, _, hno⟩
    exact hno hoff
  · rintro ⟨hoff, _, hno⟩
    exact hno hoff
  · rintro ⟨hoff, _, hno⟩
    exact hno hoff
  · rintro ⟨hoff, hgt, hle⟩
    unfold is_off_season_gdd gdd_harvest_end at hoff
    unfold gdd_optimal_end at hgt
    unfold gdd_harvest_end at hle
    rcases hoff with hlow | hhigh
    · linarith
    · linarith
  · rintro ⟨⟨⟨_, hle⟩, _⟩, hgt, _⟩
    unfold gdd_optimal_end at hle hgt
    linarith

/-- C5 witness: the exclusion theorem applied to the GDDTarget
(maturity 1000, peak 2000, window 400) at `current_gdd = 2300`. -/
theorem C5_witness :
    ¬ (is_off_season_gdd 1000 2000 400 2300 ∧
        is_harvestable_gdd 1000 2000 400 2300) ∧
      ¬ (is_off_season_gdd 1000 2000 400 2300 ∧
          is_in_optimal_window_gdd 1000 2000 400 2300) ∧
      ¬ (is_off_season_gdd 1000 2000 400 2300 ∧
          is_at_peak_gdd 1000 2000 400 2300) ∧
      ¬ (is_off_season_gdd 1000 2000 400 2300 ∧
          is_past_optimal_gdd 2000 400 2300) ∧
      ¬ (is_in_optimal_window_gdd 1000 2000 400 2300 ∧
          is_past_optimal_gdd 2000 400 2300) :=
  C5_status_exclusions 1000 2000 400 2300 (by norm_num) (by norm_num)
    (by norm_num)

/-- C8 counterexample: crop `peach` (not a storage crop), 31 days past the
projected window end (end day 220, today day 251), yet no roll-forward
happens because `current_gdd = 2000` is still inside the GDD window
(`is_off_season` is false) — the roll-forward requires the off-season flag
in addition to the 30-days-past condition. -/
theorem C8_counterexample :
    (projectWindowDates 0 1000 2000 400 10).window_end_date + 30 < 251 ∧
      "peach" ∉ storage_crops ∧
      (predictNextSeasonRollForward "peach" 0 1000 251
          1000 2000 400 2000 10).showing_next_season = false := by
  have hend : (projectWindowDates 0 1000 2000 400 10).window_end_date = 220 := by
    unfold projectWindowDates gdd_harvest_end
    rw [if_pos (by norm_num : (0:ℚ) < 10)]
    dsimp only
    rw [show ((2000 + 400/2 : ℚ)/10) = ((220 : ℤ) : ℚ) by norm_num,
      pyInt_intCast]
    norm_num
  refine ⟨by rw [hend]; norm_num, by decide, ?_⟩
  unfold predictNextSeasonRollForward
  rw [if_neg]
  rintro ⟨hoff, -⟩
  unfold is_off_season_gdd gdd_harvest_end at hoff
  rcases hoff with h | h <;> norm_num at h

/-- C8 (corrected): the prediction is rolled forward to the next season's
reference date (with `showing_next_season = true`) exactly when the GDD
status is off-season, today is at least 30 days past the projected window
end, and the crop is not a long-storage crop (apple and pear are excluded,
so for them the prediction is never rolled forward); the claim as stated
omits the off-season requirement. -/
theorem C8_roll_forward_iff (crop_id : String)
    (reference_date next_bloom today : ℤ) (m p w g rate : ℚ) :
    ((predictNextSeasonRollForward crop_id reference_date next_bloom today
        m p w g rate).showing_next_season = true ↔
      (is_off_season_gdd m p w g ∧
        (projectWindowDates reference_date m p w rate).window_end_date < today ∧
        30 ≤ today - (projectWindowDates reference_date m p w rate).window_end_date ∧
        crop_id ∉ storage_crops)) ∧
      (predictNextSeasonRollForward crop_id reference_date next_bloom today
          m p w g rate).dates =
        (if (predictNextSeasonRollForward crop_id reference_date next_bloom
            today m p w g rate).showing_next_season = true then
          projectWindowDates next_bloom m p w rate
        else projectWindowDates reference_date m p w rate) := by
  constructor
  · simp only [predictNextSeasonRollForward]
    by_cases hpast :
        (projectWindowDates reference_date m p w rate).window_end_date < today
    · simp only [if_pos hpast]
      split_ifs with hc
      · exact ⟨fun _ => hc, fun _ => rfl⟩
      · exact ⟨fun h => absurd h (by norm_num), fun hr => absurd hr hc⟩
    · simp only [if_neg hpast]
      split_ifs with hc
      · exact absurd hc.2.1 hpast
      · exact ⟨fun h => absurd h (by norm_num),
          fun hr => absurd hr.2.1 hpast⟩
  · simp only [predictNextSeasonRollForward]
    split_ifs with hc <;> simp_all

/-- C8 witness: the roll-forward characterization applied to crop `apple`
(a storage crop), 100 days past the window end and off-season — the
prediction is still not rolled forward. -/
theorem C8_witness :
    ((predictNextSeasonRollForward "apple" 0 400 420
        1000 2000 400 9999 10).showing_next_season = true ↔
      (is_off_season_gdd 1000 2000 400 9999 ∧
        (projectWindowDates 0 1000 2000 400 10).window_end_date < 420 ∧
        30 ≤ 420 - (projectWindowDates 0 1000 2000 400 10).window_end_date ∧
        "apple" ∉ storage_crops)) ∧
      (predictNextSeasonRollForward "apple" 0 400 420
          1000 2000 400 9999 10).dates =
        (if (predictNextSeasonRollForward "apple" 0 400 420
            1000 2000 400 9999 10).showing_next_season = true then
          projectWindowDates 400 1000 2000 400 10
        else projectWindowDates 0 1000 2000 400 10) :=
  C8_roll_forward_iff "apple" 0 400 420 1000 2000 400 9999 10

theorem daysInYear_ge (y : ℤ) : 365 ≤ daysInYear y := by
  unfold daysInYear
  split_ifs <;> norm_num

theorem doy_to_date_eval {doy : ℤ} (y : ℤ) (h1 : 1 ≤ doy) (h2 : doy ≤ 365) :
    doy_to_date doy y = ⟨y, doy⟩ := by
  unfold doy_to_date
  rw [if_neg (by omega)]
  unfold jan1Plus
  rw [if_pos (by have := daysInYear_ge y; omega)]
  have : doy - 1 + 1 = doy := by omega
  rw [this]

/-- C2 (confirmed): for the wraparound season
`historical_harvest_start_doy = 305`, `historical_harvest_end_doy = 31`,
the selected `harvest_end_date` falls in the calendar year after
`harvest_start_date`, and every valid "today" between November 1 and
January 31 — on either side of January 1 — is classified as within the
harvest window (`is_harvestable` true, `is_off_season` false). -/
theorem C2_wraparound_window (today : DateYD) (hv : validDate today)
    (hrange : nov1doy today.year ≤ today.doy ∨ today.doy ≤ 31) :
    (selectSeasonWindow 305 31 today).2.year =
        (selectSeasonWindow 305 31 today).1.year + 1 ∧
      is_harvestable_date (selectSeasonWindow 305 31 today).1
        (selectSeasonWindow 305 31 today).2 today ∧
      ¬ is_off_season_date (selectSeasonWindow 305 31 today).1
        (selectSeasonWindow 305 31 today).2 today := by
  have hnov : (305 : ℤ) ≤ nov1doy today.year := by
    unfold nov1doy
    split_ifs <;> omega
  unfold selectSeasonWindow
  rw [if_pos (by norm_num : (31:ℤ) < 305)]
  by_cases h1 : (305 : ℤ) ≤ today.doy
  · rw [if_pos h1]
    rw [doy_to_date_eval today.year (by norm_num) (by norm_num),
      doy_to_date_eval (today.year + 1) (by norm_num) (by norm_num)]
    unfold is_harvestable_date is_off_season_date dateLe dateLt
    dsimp only
    refine ⟨by omega, ⟨by omega, by omega⟩, ?_⟩
    rintro (h | h) <;> omega
  · rw [if_neg h1]
    have h2 : today.doy ≤ 31 := by
      rcases hrange with h | h
      · omega
      · exact h
    rw [if_pos h2]
    rw [doy_to_date_eval (today.year - 1) (by norm_num) (by norm_num),
      doy_to_date_eval today.year (by norm_num) (by norm_num)]
    unfold is_harvestable_date is_off_season_date dateLe dateLt
    dsimp only
    have hd1 : 1 ≤ today.doy := hv.1
    refine ⟨by omega, ⟨by omega, by omega⟩, ?_⟩
    rintro (h | h) <;> omega

/-- C2 witness: the wraparound theorem applied at today = January 15, 2025
(day-of-year 15, on the far side of the year boundary from the November 1
season start). -/
theorem C2_witness :
    (selectSeasonWindow 305 31 ⟨2025, 15⟩).2.year =
        (selectSeasonWindow 305 31 ⟨2025, 15⟩).1.year + 1 ∧
      is_harvestable_date (selectSeasonWindow 305 31 ⟨2025, 15⟩).1
        (selectSeasonWindow 305 31 ⟨2025, 15⟩).2 ⟨2025, 15⟩ ∧
      ¬ is_off_season_date (selectSeasonWindow 305 31 ⟨2025, 15⟩).1
        (selectSeasonWindow 305 31 ⟨2025, 15⟩).2 ⟨2025, 15⟩ :=
  C2_wraparound_window ⟨2025, 15⟩ (by decide) (by decide)

theorem logistic_sugar_arg_atTop {dd50 s : ℝ} (hs : 0 < s) :
    Filter.Tendsto (fun g : ℝ => -(g - dd50) / s) Filter.atTop Filter.atBot := by
  have hs0 : s ≠ 0 := ne_of_gt hs
  have harg : (fun g : ℝ => -(g - dd50) / s) =
      (fun g : ℝ => (-1/s) * g + dd50/s) := by
    funext g
    field_simp
    ring
  rw [harg]
  exact Filter.tendsto_atBot_add_const_right _ (dd50/s)
    (Filter.Tendsto.const_mul_atTop_of_neg
      (div_neg_of_neg_of_pos (by norm_num) hs) Filter.tendsto_id)

theorem logistic_sugar_arg_atBot {dd50 s : ℝ} (hs : 0 < s) :
    Filter.Tendsto (fun g : ℝ => -(g - dd50) / s) Filter.atBot Filter.atTop := by
  have hs0 : s ≠ 0 := ne_of_gt hs
  have harg : (fun g : ℝ => -(g - dd50) / s) =
      (fun g : ℝ => (-1/s) * g + dd50/s) := by
    funext g
    field_simp
    ring
  rw [harg]
  exact Filter.tendsto_atTop_add_const_right _ (dd50/s)
    (Filter.Tendsto.const_mul_atBot_of_neg
      (div_neg_of_neg_of_pos (by norm_num) hs) Filter.tendsto_id)

/-- C7 (corrected): every logistic sugar curve with positive steepness and
cultivar ceiling at or above the curve minimum is non-decreasing in
accumulated GDD and tends to the ceiling as GDD grows without bound; but it
approaches the minimum only as GDD tends to negative infinity — at GDD = 0
the curve sits strictly above the minimum (by `(ceiling - min) /
(1 + exp(midpoint/steepness))`), as the counterexample shows, so "approaches
min as gdd tends to 0" holds only approximately, not as a limit. -/
theorem C7_logistic_curve (ssc_min dd50 s ceiling g1 g2 : ℝ)
    (hs : 0 < s) (hc : ssc_min ≤ ceiling) (hg : g1 ≤ g2) :
    logistic_sugar ssc_min dd50 s ceiling g1 ≤
        logistic_sugar ssc_min dd50 s ceiling g2 ∧
      Filter.Tendsto (logistic_sugar ssc_min dd50 s ceiling)
        Filter.atTop (nhds ceiling) ∧
      Filter.Tendsto (logistic_sugar ssc_min dd50 s ceiling)
        Filter.atBot (nhds ssc_min) := by
  refine ⟨?_, ?_, ?_⟩
  · unfold logistic_sugar
    have hexp : Real.exp (-(g2 - dd50) / s) ≤ Real.exp (-(g1 - dd50) / s) :=
      Real.exp_le_exp.mpr ((div_le_div_right hs).mpr (by linarith))
    have hpos : (0:ℝ) < 1 + Real.exp (-(g2 - dd50) / s) := by positivity
    have hnum : (0:ℝ) ≤ ceiling - ssc_min := by linarith
    have hle : 1 + Real.exp (-(g2 - dd50) / s) ≤
        1 + Real.exp (-(g1 - dd50) / s) := by linarith
    gcongr
  · have hexp : Filter.Tendsto
        (fun g : ℝ => Real.exp (-(g - dd50) / s)) Filter.atTop (nhds 0) :=
      Real.tendsto_exp_atBot.comp (logistic_sugar_arg_atTop hs)
    have hden : Filter.Tendsto
        (fun g : ℝ => 1 + Real.exp (-(g - dd50) / s)) Filter.atTop
        (nhds 1) := by
      simpa using tendsto_const_nhds.add hexp
    have hfrac : Filter.Tendsto
        (fun g : ℝ => (ceiling - ssc_min) / (1 + Real.exp (-(g - dd50) / s)))
        Filter.atTop (nhds ((ceiling - ssc_min) / 1)) :=
      tendsto_const_nhds.div hden (by norm_num)
    have h2 : Filter.Tendsto
        (fun g : ℝ => ssc_min +
          (ceiling - ssc_min) / (1 + Real.exp (-(g - dd50) / s)))
        Filter.atTop (nhds (ssc_min + (ceiling - ssc_min) / 1)) :=
      tendsto_const_nhds.add hfrac
    rw [show ssc_min + (ceiling - ssc_min) / 1 = ceiling by ring] at h2
    unfold logistic_sugar
    exact h2
  · have hexp : Filter.Tendsto
        (fun g : ℝ => Real.exp (-(g - dd50) / s)) Filter.atBot
        Filter.atTop :=
      Real.tendsto_exp_atTop.comp (logistic_sugar_arg_atBot hs)
    have hden : Filter.Tendsto
        (fun g : ℝ => 1 + Real.exp (-(g - dd50) / s)) Filter.atBot
        Filter.atTop :=
      Filter.tendsto_atTop_add_const_left _ 1 hexp
    have hfrac : Filter.Tendsto
        (fun g : ℝ => (ceiling - ssc_min) / (1 + Real.exp (-(g - dd50) / s)))
        Filter.atBot (nhds 0) :=
      Filter.Tendsto.div_atTop tendsto_const_nhds hden
    have h2 : Filter.Tendsto
        (fun g : ℝ => ssc_min +
          (ceiling - ssc_min) / (1 + Real.exp (-(g - dd50) / s)))
        Filter.atBot (nhds (ssc_min + 0)) :=
      tendsto_const_nhds.add hfrac
    rw [add_zero] at h2
    unfold logistic_sugar
    exact h2

/-- C7 counterexample: the citrus curve (minimum 6, midpoint 5500,
steepness 900) with ceiling 14 does not tend to its minimum as GDD tends
to 0: it is continuous, and its value at GDD = 0 is strictly above 6, so
the limit at 0 is not the minimum. -/
theorem C7_counterexample :
    6 < citrus_predict_sugar_content 0 14 ∧
      ¬ Filter.Tendsto (fun g : ℝ => citrus_predict_sugar_content g 14)
        (nhds 0) (nhds 6) := by
  have hcont : Continuous fun g : ℝ => citrus_predict_sugar_content g 14 := by
    unfold citrus_predict_sugar_content logistic_sugar
    apply Continuous.add continuous_const
    apply Continuous.div continuous_const
    · exact continuous_const.add
        (Real.continuous_exp.comp
          (((continuous_id.sub continuous_const).neg).div_const 900))
    · intro x
      positivity
  have hval : 6 < citrus_predict_sugar_content 0 14 := by
    unfold citrus_predict_sugar_content logistic_sugar
    have : (0:ℝ) < (14 - 6) / (1 + Real.exp (-(0 - 5500) / 900)) := by
      positivity
    linarith
  refine ⟨hval, fun h => ?_⟩
  have huniq : (6:ℝ) = citrus_predict_sugar_content 0 14 :=
    tendsto_nhds_unique h hcont.continuousAt
  linarith

/-- C7 witness: the logistic-curve theorem applied to the citrus parameters
(minimum 6, midpoint 5500, steepness 900) with ceiling 14, at the GDD pair
(100, 200). -/
theorem C7_witness :
    logistic_sugar 6 5500 900 14 100 ≤ logistic_sugar 6 5500 900 14 200 ∧
      Filter.Tendsto (logistic_sugar 6 5500 900 14) Filter.atTop (nhds 14) ∧
      Filter.Tendsto (logistic_sugar 6 5500 900 14) Filter.atBot (nhds 6) :=
  C7_logistic_curve 6 5500 900 14 100 200 (by norm_num) (by norm_num)
    (by norm_num)
